import Mathlib

/-
  Shallow embedding of the buffer-pool core of the repository:
  * `LRUReplacer`         — src/unnamed/part_000 (lru_replacer.cpp)
  * `BufferPoolManager`   — src/unnamed/part_001 (buffer_pool_manager.cpp)

  Machine state is modelled functionally: every C++ member function
  becomes a Lean function from the old state to the new state (plus its
  return value).  The durable-storage collaborator (disk manager) is
  modelled as a map from page identities to byte vectors together with
  explicit logs of the read and write calls issued against it, so that
  "no disk read occurs" / "exactly one write-back" style properties are
  expressible.
-/

/-- Page size in bytes (fixed-size pages; the constant lives in a header
that is not part of src/, the standard value of this codebase is 4096). -/
def PAGE_SIZE : Nat := 4096

/-- A page identity: (file descriptor, page number), cf. `PageId` with
fields `fd` and `page_no` used throughout src/unnamed/part_001. -/
structure PageId where
  fd : Int
  page_no : Int
deriving DecidableEq, Repr

/-- An in-memory frame: the page identity currently occupying it, the raw
bytes, the pin count and the dirty flag, cf. the `Page` fields `id_`,
`data_`, `pin_count_`, `is_dirty_` used in src/unnamed/part_001.
The pin count is an `Int` because the C++ field is a signed integer. -/
structure Page where
  id_ : PageId
  data_ : List Nat
  pin_count_ : Int
  is_dirty_ : Bool
deriving DecidableEq, Repr

/-- `Page::reset_memory()`: zero the frame's bytes (metadata untouched). -/
def Page.reset_memory (p : Page) : Page :=
  { p with data_ := List.replicate PAGE_SIZE 0 }

/-- The eviction tracker state, from src/unnamed/part_000.  The source
file references two distinct list members: `lru_list_` (maintained by
`victim`/`pin`/`unpin`, most-recently-unpinned at the head) and
`LRUlist_` (read only by `Size`).  The companion hash `lru_map_` holds,
for each tracked frame id, its list iterator; since it mirrors exactly
membership in `lru_list_`, it is represented by list membership itself. -/
structure LRUReplacer where
  lru_list_ : List Nat
  LRUlist_ : List Nat
  max_size_ : Nat
deriving DecidableEq, Repr

/-- `LRUReplacer::LRUReplacer(num_pages)`: stores the capacity; the list
members (declared in the missing header) default-construct empty. -/
def LRUReplacer.mkNew (num_pages : Nat) : LRUReplacer :=
  { lru_list_ := [], LRUlist_ := [], max_size_ := num_pages }

/-- `LRUReplacer::victim`: if `lru_list_` is empty return failure; else
remove and return the back (least recently unpinned) element. -/
def LRUReplacer.victim (r : LRUReplacer) : Option (Nat × LRUReplacer) :=
  match r.lru_list_.getLast? with
  | none => none
  | some fid => some (fid, { r with lru_list_ := r.lru_list_.dropLast })

/-- `LRUReplacer::pin`: if the frame is tracked, remove it from the list
(and from `lru_map_`, i.e. from membership). -/
def LRUReplacer.pin (r : LRUReplacer) (frame_id : Nat) : LRUReplacer :=
  if frame_id ∈ r.lru_list_ then
    { r with lru_list_ := r.lru_list_.erase frame_id }
  else r

/-- `LRUReplacer::unpin`: no-op if the frame is already tracked; else
push it at the front (most-recently-unpinned position). -/
def LRUReplacer.unpin (r : LRUReplacer) (frame_id : Nat) : LRUReplacer :=
  if frame_id ∈ r.lru_list_ then r
  else { r with lru_list_ := frame_id :: r.lru_list_ }

/-- `LRUReplacer::Size`: returns `LRUlist_.size()` — note this is the
member `LRUlist_`, not the `lru_list_` maintained by the other three
operations. -/
def LRUReplacer.Size (r : LRUReplacer) : Nat :=
  r.LRUlist_.length

/-- Modelled from the spec: the durable-storage collaborator (§6), whose
code is not in src/.  `pages` is the current disk content; `writes` and
`reads` log the `write_block`/`read_block` calls in issue order. -/
structure DiskManager where
  pages : PageId → List Nat
  writes : List (PageId × List Nat)
  reads : List PageId

/-- `DiskManager::write_page(fd, page_no, buf, PAGE_SIZE)`: store `buf`
at that identity, durably, and log the call. -/
def DiskManager.write_page (d : DiskManager) (fd page_no : Int) (buf : List Nat) :
    DiskManager :=
  { d with
    pages := fun q => if q = ⟨fd, page_no⟩ then buf else d.pages q
    writes := d.writes ++ [(⟨fd, page_no⟩, buf)] }

/-- `DiskManager::read_page(fd, page_no, buf, PAGE_SIZE)`: return the
bytes at that identity and log the call. -/
def DiskManager.read_page (d : DiskManager) (fd page_no : Int) :
    List Nat × DiskManager :=
  (d.pages ⟨fd, page_no⟩, { d with reads := d.reads ++ [⟨fd, page_no⟩] })

/-- Lookup in the page table (`page_table_.count(p) > 0` /
`page_table_[p]` read access): first binding of the key, if any. -/
def ptLookup (t : List (PageId × Nat)) (p : PageId) : Option Nat :=
  match t with
  | [] => none
  | (q, f) :: rest => if q = p then some f else ptLookup rest p

/-- `page_table_.erase(p)`: remove the binding of `p`, if present. -/
def ptErase (t : List (PageId × Nat)) (p : PageId) : List (PageId × Nat) :=
  match t with
  | [] => []
  | (q, f) :: rest => if q = p then ptErase rest p else (q, f) :: ptErase rest p

/-- `page_table_[p] = f`: overwrite the binding of `p` or append it. -/
def ptInsert (t : List (PageId × Nat)) (p : PageId) (f : Nat) : List (PageId × Nat) :=
  match t with
  | [] => [(p, f)]
  | (q, g) :: rest => if q = p then (p, f) :: rest else (q, g) :: ptInsert rest p f

/-- The buffer manager state, cf. the members used by
src/unnamed/part_001: the frame array `pages_` (frame id = index), the
page table, the free list (front = head of the list), the tracker, the
disk collaborator, and the file/page-number counters used by
`new_page`. -/
structure BufferPoolManager where
  pages_ : List Page
  page_table_ : List (PageId × Nat)
  free_list_ : List Nat
  replacer_ : LRUReplacer
  disk_manager_ : DiskManager
  fd_ : Int
  next_page_id_ : Int

/-- The frame with index `fid` (`&pages_[frame_id]`); frame indices are
in range in every reachable state, the default is irrelevant. -/
def BufferPoolManager.getPage (bp : BufferPoolManager) (fid : Nat) : Page :=
  bp.pages_.getD fid ⟨⟨-1, -1⟩, [], 0, false⟩

/-- Write frame `fid` back (`pages_.set`). -/
def BufferPoolManager.setPage (bp : BufferPoolManager) (fid : Nat) (p : Page) :
    BufferPoolManager :=
  { bp with pages_ := bp.pages_.set fid p }

/-- `BufferPoolManager::find_victim_page`: pop the front of the free
list if non-empty, else ask the replacer for a victim. -/
def BufferPoolManager.find_victim_page (bp : BufferPoolManager) :
    Option (Nat × BufferPoolManager) :=
  match bp.free_list_ with
  | fid :: rest => some (fid, { bp with free_list_ := rest })
  | [] =>
    match bp.replacer_.victim with
    | none => none
    | some (fid, r) => some (fid, { bp with replacer_ := r })

/-- `BufferPoolManager::update_page`: write the frame back iff dirty,
replace its page-table binding and its identity, clear the dirty flag.
(Defined in src/unnamed/part_001 but called from nowhere in src/.) -/
def BufferPoolManager.update_page (bp : BufferPoolManager) (fid : Nat)
    (new_page_id : PageId) (new_frame_id : Nat) : BufferPoolManager :=
  let page := bp.getPage fid
  let dm := if page.is_dirty_ then
              bp.disk_manager_.write_page page.id_.fd page.id_.page_no page.data_
            else bp.disk_manager_
  let t := ptInsert (ptErase bp.page_table_ page.id_) new_page_id new_frame_id
  let page' := { page with id_ := new_page_id, is_dirty_ := false }
  { (bp.setPage fid page') with disk_manager_ := dm, page_table_ := t }

/-- `BufferPoolManager::fetch_page`: on a page-table hit increment the
pin count, pin the frame in the replacer and return it.  On a miss,
obtain a frame from `find_victim_page`, read the page from disk into it,
set identity/pin=1/clean, and insert the identity into the page table.
(No write-back of the victim and no erase of its old identity happen on
this path.)  Returns the frame index alongside the new state. -/
def BufferPoolManager.fetch_page (bp : BufferPoolManager) (page_id : PageId) :
    Option (Nat × BufferPoolManager) :=
  match ptLookup bp.page_table_ page_id with
  | some fid =>
    let page := bp.getPage fid
    let page' := { page with pin_count_ := page.pin_count_ + 1 }
    some (fid, { (bp.setPage fid page') with replacer_ := bp.replacer_.pin fid })
  | none =>
    match bp.find_victim_page with
    | none => none
    | some (fid, bp1) =>
      let rd := bp1.disk_manager_.read_page page_id.fd page_id.page_no
      let page := bp1.getPage fid
      let page' := { page with data_ := rd.1, id_ := page_id,
                               pin_count_ := 1, is_dirty_ := false }
      some (fid, { (bp1.setPage fid page') with
                     disk_manager_ := rd.2
                     page_table_ := ptInsert bp1.page_table_ page_id fid })

/-- `BufferPoolManager::unpin_page`: fail on a non-resident identity;
else OR `is_dirty` into the dirty flag, decrement the pin count if
positive, and if the count is now 0 hand the frame to the replacer. -/
def BufferPoolManager.unpin_page (bp : BufferPoolManager) (page_id : PageId)
    (is_dirty : Bool) : Bool × BufferPoolManager :=
  match ptLookup bp.page_table_ page_id with
  | none => (false, bp)
  | some fid =>
    let page := bp.getPage fid
    let page1 := if is_dirty then { page with is_dirty_ := true } else page
    let page2 := if page1.pin_count_ > 0 then
                   { page1 with pin_count_ := page1.pin_count_ - 1 }
                 else page1
    let r := if page2.pin_count_ = 0 then bp.replacer_.unpin fid else bp.replacer_
    (true, { (bp.setPage fid page2) with replacer_ := r })

/-- `BufferPoolManager::flush_page`: fail on a non-resident identity;
else write the frame's bytes to disk (at the argument identity) and
clear the dirty flag.  Pin count, page table, free list and replacer are
untouched. -/
def BufferPoolManager.flush_page (bp : BufferPoolManager) (page_id : PageId) :
    Bool × BufferPoolManager :=
  match ptLookup bp.page_table_ page_id with
  | none => (false, bp)
  | some fid =>
    let page := bp.getPage fid
    let dm := bp.disk_manager_.write_page page_id.fd page_id.page_no page.data_
    (true, { (bp.setPage fid { page with is_dirty_ := false }) with
               disk_manager_ := dm })

/-- `BufferPoolManager::new_page`: obtain a frame from
`find_victim_page`, allocate a fresh identity `(fd_, next_page_id_++)`,
zero the frame, set identity/pin=1/clean and insert it into the page
table.  (As in `fetch_page`, no write-back of the victim and no erase of
its old identity happen.)  Returns the fresh identity and frame index. -/
def BufferPoolManager.new_page (bp : BufferPoolManager) :
    Option (PageId × Nat × BufferPoolManager) :=
  match bp.find_victim_page with
  | none => none
  | some (fid, bp1) =>
    let pid : PageId := ⟨bp1.fd_, bp1.next_page_id_⟩
    let bp2 := { bp1 with next_page_id_ := bp1.next_page_id_ + 1 }
    let page := (bp2.getPage fid).reset_memory
    let page' := { page with id_ := pid, pin_count_ := 1, is_dirty_ := false }
    some (pid, fid, { (bp2.setPage fid page') with
                        page_table_ := ptInsert bp2.page_table_ pid fid })

/-- `BufferPoolManager::delete_page`: fail on a non-resident identity
(the source returns `false` here); fail if the pin count is positive;
else erase the identity from the page table, append the frame to the
free list and zero its bytes.  (The replacer is not touched.) -/
def BufferPoolManager.delete_page (bp : BufferPoolManager) (page_id : PageId) :
    Bool × BufferPoolManager :=
  match ptLookup bp.page_table_ page_id with
  | none => (false, bp)
  | some fid =>
    let page := bp.getPage fid
    if page.pin_count_ > 0 then (false, bp)
    else
      (true, { (bp.setPage fid page.reset_memory) with
                 page_table_ := ptErase bp.page_table_ page_id
                 free_list_ := bp.free_list_ ++ [fid] })

/-- `BufferPoolManager::flush_all_pages(fd)`: flush every page-table
entry whose identity belongs to `fd`, in table iteration order
(`flush_page` leaves the table unchanged, so iterating the entry list of
the pre-state matches the C++ loop over the live map). -/
def BufferPoolManager.flush_all_pages (bp : BufferPoolManager) (fd : Int) :
    BufferPoolManager :=
  bp.page_table_.foldl
    (fun b e => if e.1.fd = fd then (b.flush_page e.1).2 else b) bp

/-- Modelled from the spec: the BufferPoolManager constructor is not in
src/ (its header is missing).  Per §3/§8 of the spec all frames start on
the free list in index order ("free list = [0,1]"), zeroed, unpinned and
clean, the page table starts empty, and fresh page numbers count up from
the start. -/
def BufferPoolManager.mkNew (pool_size : Nat) (fd : Int)
    (disk0 : PageId → List Nat) : BufferPoolManager :=
  { pages_ := List.replicate pool_size
      ⟨⟨-1, -1⟩, List.replicate PAGE_SIZE 0, 0, false⟩
    page_table_ := []
    free_list_ := List.range pool_size
    replacer_ := LRUReplacer.mkNew pool_size
    disk_manager_ := ⟨disk0, [], []⟩
    fd_ := fd
    next_page_id_ := 0 }

/-- One public buffer-manager operation, for stating properties of
operation sequences. -/
inductive Op where
  | fetch (page_id : PageId)
  | unpin (page_id : PageId) (is_dirty : Bool)
  | flush (page_id : PageId)
  | newp
  | del (page_id : PageId)
  | flushAll (fd : Int)

/-- Apply one operation to the state (return values discarded). -/
def stepOp (bp : BufferPoolManager) : Op → BufferPoolManager
  | .fetch pid =>
    match bp.fetch_page pid with
    | none => bp
    | some (_, b) => b
  | .unpin pid d => (bp.unpin_page pid d).2
  | .flush pid => (bp.flush_page pid).2
  | .newp =>
    match bp.new_page with
    | none => bp
    | some (_, _, b) => b
  | .del pid => (bp.delete_page pid).2
  | .flushAll fd => bp.flush_all_pages fd

/-- Apply a sequence of operations, left to right. -/
def runOps (bp : BufferPoolManager) : List Op → BufferPoolManager
  | [] => bp
  | op :: rest => runOps (stepOp bp op) rest

/-- An all-zeros initial disk, for concrete executions. -/
def diskZero : PageId → List Nat := fun _ => List.replicate PAGE_SIZE 0

/-- A capacity-1 buffer pool over file descriptor 0 on a zeroed disk. -/
def bpCap1 : BufferPoolManager := BufferPoolManager.mkNew 1 0 diskZero

/-- C1: refuted on the code.  In the capacity-1 pool, `new_page`
allocates identity (0,0) into frame 0, `unpin((0,0), dirty := true)`
marks the frame dirty and hands it to the tracker; the pre-state of the
next fetch has an empty free list, frame 0 dirty and tracked.
`fetch((0,7))` misses, takes frame 0 from the tracker and reuses it, yet
the run issues zero `write_page` calls (the dirty victim is not written
back) and the victim's old identity (0,0) is still bound in the page
table after reuse — `update_page`, which implements exactly the claimed
behaviour, is never called by `fetch_page`/`new_page`. -/
theorem c1_dirty_victim_not_written_back :
    ((runOps bpCap1 [.newp, .unpin ⟨0,0⟩ true]).getPage 0).is_dirty_ = true ∧
    (runOps bpCap1 [.newp, .unpin ⟨0,0⟩ true]).free_list_ = [] ∧
    (runOps bpCap1 [.newp, .unpin ⟨0,0⟩ true]).replacer_.lru_list_ = [0] ∧
    (runOps bpCap1 [.newp, .unpin ⟨0,0⟩ true, .fetch ⟨0,7⟩]).disk_manager_.writes = [] ∧
    ptLookup (runOps bpCap1 [.newp, .unpin ⟨0,0⟩ true, .fetch ⟨0,7⟩]).page_table_ ⟨0,0⟩
      = some 0 ∧
    ((runOps bpCap1 [.newp, .unpin ⟨0,0⟩ true, .fetch ⟨0,7⟩]).getPage 0).id_ = ⟨0,7⟩ := by
  decide

/-- C2: refuted on the code.  After `new_page` ((0,0) in frame 0),
`unpin((0,0), false)`, `delete_page((0,0))` and a second `new_page`,
frame 0 is pinned (pin count 1, holding the fresh page (0,1)) and yet
still sits in the eviction tracker — `delete_page` freed the frame
without removing it from the tracker — and the next victim selection
returns this pinned frame. -/
theorem c2_pinned_frame_selected_as_victim :
    ((runOps bpCap1 [.newp, .unpin ⟨0,0⟩ false, .del ⟨0,0⟩, .newp]).getPage 0).pin_count_
      = 1 ∧
    (runOps bpCap1 [.newp, .unpin ⟨0,0⟩ false, .del ⟨0,0⟩, .newp]).replacer_.lru_list_
      = [0] ∧
    Option.map Prod.fst
      (runOps bpCap1 [.newp, .unpin ⟨0,0⟩ false, .del ⟨0,0⟩, .newp]).find_victim_page
      = some 0 := by
  decide

/-- C3: refuted on the code.  After `new_page` ((0,0) in frame 0),
`unpin((0,0), false)` and `fetch((0,7))` (a miss that evicts frame 0),
the old identity (0,0) is still a key of the page table although no
frame holds it any more (the only frame now holds (0,7)): the
if-and-only-if between page-table keys and frame identities is broken
because the eviction path never erases the victim's old binding. -/
theorem c3_stale_page_table_entry :
    ptLookup (runOps bpCap1 [.newp, .unpin ⟨0,0⟩ false, .fetch ⟨0,7⟩]).page_table_ ⟨0,0⟩
      = some 0 ∧
    (∀ p ∈ (runOps bpCap1 [.newp, .unpin ⟨0,0⟩ false, .fetch ⟨0,7⟩]).pages_,
      p.id_ ≠ (⟨0,0⟩ : PageId)) := by
  decide

/-- C4: refuted on the code.  After `new_page` ((0,0) in frame 0),
`unpin((0,0), false)` and `delete_page((0,0))`, frame 0 is on the free
list and simultaneously still in the eviction tracker: `delete_page`
appends the frame to the free list without removing it from the
tracker. -/
theorem c4_freed_frame_still_tracked :
    (runOps bpCap1 [.newp, .unpin ⟨0,0⟩ false, .del ⟨0,0⟩]).free_list_ = [0] ∧
    (runOps bpCap1 [.newp, .unpin ⟨0,0⟩ false, .del ⟨0,0⟩]).replacer_.lru_list_ = [0] := by
  decide

/-- C5: refuted on the code.  Identity (0,7) is not resident in the
fresh pool, yet `delete_page((0,7))` returns `false` — and so does a
second identical call — although the claim (and the function's own
documentation comment) promise `true` for a non-resident identity. -/
theorem c5_delete_nonresident_returns_false :
    ptLookup bpCap1.page_table_ ⟨0,7⟩ = none ∧
    (bpCap1.delete_page ⟨0,7⟩).1 = false ∧
    ((bpCap1.delete_page ⟨0,7⟩).2.delete_page ⟨0,7⟩).1 = false := by
  decide

/-- Reading a list at the index just written. -/
theorem getD_set_self {α : Type _} (l : List α) (i : Nat) (a d : α)
    (h : i < l.length) : (l.set i a).getD i d = a := by
  simp [List.getD, List.getElem?_set_self, h]

/-- Reading a list at an index other than the one written. -/
theorem getD_set_ne {α : Type _} (l : List α) (i j : Nat) (a d : α)
    (h : j ≠ i) : (l.set i a).getD j d = l.getD j d := by
  simp [List.getD, List.getElem?_set_ne (Ne.symm h)]

/-- `setPage` then `getPage` at the same (in-range) frame. -/
theorem getPage_setPage_self (bp : BufferPoolManager) (fid : Nat) (p : Page)
    (h : fid < bp.pages_.length) : (bp.setPage fid p).getPage fid = p := by
  simp only [BufferPoolManager.getPage, BufferPoolManager.setPage]
  exact getD_set_self _ _ _ _ h

/-- `setPage` then `getPage` at a different frame. -/
theorem getPage_setPage_ne (bp : BufferPoolManager) (fid g : Nat) (p : Page)
    (h : g ≠ fid) : (bp.setPage fid p).getPage g = bp.getPage g := by
  simp only [BufferPoolManager.getPage, BufferPoolManager.setPage]
  exact getD_set_ne _ _ _ _ _ h

/-- C9: refuted on the code.  `Size` reads the member `LRUlist_`, which
no operation of the source file ever updates, while `victim`/`pin`/
`unpin` maintain the distinct member `lru_list_`: after `unpin 1` on a
fresh replacer one frame is tracked but `Size` still returns 0; the same
happens inside the buffer pool after `new_page` + `unpin`. -/
theorem c9_size_ignores_tracked_frames :
    ((LRUReplacer.mkNew 3).unpin 1).Size = 0 ∧
    ((LRUReplacer.mkNew 3).unpin 1).lru_list_.length = 1 ∧
    (runOps bpCap1 [.newp, .unpin ⟨0,0⟩ false]).replacer_.Size = 0 ∧
    (runOps bpCap1 [.newp, .unpin ⟨0,0⟩ false]).replacer_.lru_list_.length = 1 := by
  decide

/-- C7: `unpin_page(id, mark_dirty)` fails exactly on a non-resident
identity; on a resident identity it returns true, ORs `mark_dirty` into
the frame's dirty flag, decrements the pin count with a floor at 0
(decrementing an already-zero count is a no-op that still returns true),
registers the frame with the tracker exactly when the resulting count is
0 (leaving the tracker untouched otherwise), and leaves the page table
and free list unchanged. -/
theorem c7_unpin_page_spec (bp : BufferPoolManager) (pid : PageId) (d : Bool) :
    ((bp.unpin_page pid d).1 = false ↔ ptLookup bp.page_table_ pid = none) ∧
    (∀ fid, ptLookup bp.page_table_ pid = some fid → fid < bp.pages_.length →
      (bp.unpin_page pid d).1 = true ∧
      ((bp.unpin_page pid d).2.getPage fid).is_dirty_
        = ((bp.getPage fid).is_dirty_ || d) ∧
      ((bp.unpin_page pid d).2.getPage fid).data_ = (bp.getPage fid).data_ ∧
      ((bp.unpin_page pid d).2.getPage fid).id_ = (bp.getPage fid).id_ ∧
      (0 ≤ (bp.getPage fid).pin_count_ →
        ((bp.unpin_page pid d).2.getPage fid).pin_count_
          = max ((bp.getPage fid).pin_count_ - 1) 0) ∧
      ((bp.unpin_page pid d).2.replacer_
        = if ((bp.unpin_page pid d).2.getPage fid).pin_count_ = 0
          then bp.replacer_.unpin fid else bp.replacer_) ∧
      (bp.unpin_page pid d).2.page_table_ = bp.page_table_ ∧
      (bp.unpin_page pid d).2.free_list_ = bp.free_list_) := by
  refine ⟨?_, ?_⟩
  · cases h : ptLookup bp.page_table_ pid <;>
      simp [BufferPoolManager.unpin_page, h]
  · intro fid hf hlen
    simp only [BufferPoolManager.unpin_page, hf]
    rw [show ∀ r : LRUReplacer, ∀ b : BufferPoolManager,
          ({ b with replacer_ := r } : BufferPoolManager).getPage fid = b.getPage fid
        from fun _ _ => rfl]
    rw [getPage_setPage_self bp fid _ hlen]
    refine ⟨trivial, ?_, ?_, ?_, ?_, rfl, rfl, rfl⟩
    · split_ifs <;> simp_all
    · split_ifs <;> simp_all
    · split_ifs <;> simp_all
    · intro hpin
      split_ifs <;> simp_all <;> omega

/-- Witness for C7 at a concrete input: capacity-1 pool after one
`new_page`, unpinning the resident identity (0,0) with the dirty mark. -/
theorem c7_unpin_page_spec_witness :
    ((runOps bpCap1 [.newp]).unpin_page ⟨0,0⟩ true).1 = true ∧
    (((runOps bpCap1 [.newp]).unpin_page ⟨0,0⟩ true).2.getPage 0).is_dirty_
      = (((runOps bpCap1 [.newp]).getPage 0).is_dirty_ || true) ∧
    (((runOps bpCap1 [.newp]).unpin_page ⟨0,0⟩ true).2.getPage 0).data_
      = ((runOps bpCap1 [.newp]).getPage 0).data_ ∧
    (((runOps bpCap1 [.newp]).unpin_page ⟨0,0⟩ true).2.getPage 0).id_
      = ((runOps bpCap1 [.newp]).getPage 0).id_ ∧
    (((runOps bpCap1 [.newp]).unpin_page ⟨0,0⟩ true).2.getPage 0).pin_count_
      = max (((runOps bpCap1 [.newp]).getPage 0).pin_count_ - 1) 0 ∧
    ((runOps bpCap1 [.newp]).unpin_page ⟨0,0⟩ true).2.replacer_
      = (if (((runOps bpCap1 [.newp]).unpin_page ⟨0,0⟩ true).2.getPage 0).pin_count_ = 0
         then (runOps bpCap1 [.newp]).replacer_.unpin 0
         else (runOps bpCap1 [.newp]).replacer_) ∧
    ((runOps bpCap1 [.newp]).unpin_page ⟨0,0⟩ true).2.page_table_
      = (runOps bpCap1 [.newp]).page_table_ ∧
    ((runOps bpCap1 [.newp]).unpin_page ⟨0,0⟩ true).2.free_list_
      = (runOps bpCap1 [.newp]).free_list_ := by
  have h := (c7_unpin_page_spec (runOps bpCap1 [.newp]) ⟨0,0⟩ true).2 0
    (by decide) (by decide)
  exact ⟨h.1, h.2.1, h.2.2.1, h.2.2.2.1, h.2.2.2.2.1 (by decide), h.2.2.2.2.2.1,
         h.2.2.2.2.2.2.1, h.2.2.2.2.2.2.2⟩

/-- C8: `flush_page(id)` fails exactly on a non-resident identity; on a
resident identity it appends exactly one write of the frame's bytes (at
`id`) to the durable-storage log — with no hypothesis on the pin state —
clears the dirty flag, and leaves the frame's pin count, identity and
bytes, the page table, the free list and the tracker unchanged, as well
as every other frame. -/
theorem c8_flush_page_spec (bp : BufferPoolManager) (pid : PageId) :
    ((bp.flush_page pid).1 = false ↔ ptLookup bp.page_table_ pid = none) ∧
    (∀ fid, ptLookup bp.page_table_ pid = some fid → fid < bp.pages_.length →
      (bp.flush_page pid).1 = true ∧
      (bp.flush_page pid).2.disk_manager_.writes
        = bp.disk_manager_.writes ++ [(pid, (bp.getPage fid).data_)] ∧
      ((bp.flush_page pid).2.getPage fid).is_dirty_ = false ∧
      ((bp.flush_page pid).2.getPage fid).pin_count_ = (bp.getPage fid).pin_count_ ∧
      ((bp.flush_page pid).2.getPage fid).data_ = (bp.getPage fid).data_ ∧
      ((bp.flush_page pid).2.getPage fid).id_ = (bp.getPage fid).id_ ∧
      (bp.flush_page pid).2.page_table_ = bp.page_table_ ∧
      (bp.flush_page pid).2.free_list_ = bp.free_list_ ∧
      (bp.flush_page pid).2.replacer_ = bp.replacer_ ∧
      (∀ g, g ≠ fid → (bp.flush_page pid).2.getPage g = bp.getPage g)) := by
  refine ⟨?_, ?_⟩
  · cases h : ptLookup bp.page_table_ pid <;>
      simp [BufferPoolManager.flush_page, h]
  · intro fid hf hlen
    simp only [BufferPoolManager.flush_page, hf]
    refine ⟨trivial, rfl, ?_, ?_, ?_, ?_, rfl, rfl, rfl, ?_⟩
    · simp only [BufferPoolManager.getPage, BufferPoolManager.setPage]
      rw [getD_set_self _ _ _ _ hlen]
    · simp only [BufferPoolManager.getPage, BufferPoolManager.setPage]
      rw [getD_set_self _ _ _ _ hlen]
    · simp only [BufferPoolManager.getPage, BufferPoolManager.setPage]
      rw [getD_set_self _ _ _ _ hlen]
    · simp only [BufferPoolManager.getPage, BufferPoolManager.setPage]
      rw [getD_set_self _ _ _ _ hlen]
    · intro g hg
      simp only [BufferPoolManager.getPage, BufferPoolManager.setPage]
      rw [getD_set_ne _ _ _ _ _ hg]

/-- Witness for C8 at a concrete input: capacity-1 pool after one
`new_page`, flushing the resident (and still pinned) identity (0,0). -/
theorem c8_flush_page_spec_witness :
    ((runOps bpCap1 [.newp]).flush_page ⟨0,0⟩).1 = true ∧
    ((runOps bpCap1 [.newp]).flush_page ⟨0,0⟩).2.disk_manager_.writes
      = (runOps bpCap1 [.newp]).disk_manager_.writes
          ++ [(⟨0,0⟩, ((runOps bpCap1 [.newp]).getPage 0).data_)] ∧
    (((runOps bpCap1 [.newp]).flush_page ⟨0,0⟩).2.getPage 0).is_dirty_ = false ∧
    (((runOps bpCap1 [.newp]).flush_page ⟨0,0⟩).2.getPage 0).pin_count_
      = ((runOps bpCap1 [.newp]).getPage 0).pin_count_ ∧
    (((runOps bpCap1 [.newp]).flush_page ⟨0,0⟩).2.getPage 0).data_
      = ((runOps bpCap1 [.newp]).getPage 0).data_ ∧
    (((runOps bpCap1 [.newp]).flush_page ⟨0,0⟩).2.getPage 0).id_
      = ((runOps bpCap1 [.newp]).getPage 0).id_ ∧
    ((runOps bpCap1 [.newp]).flush_page ⟨0,0⟩).2.page_table_
      = (runOps bpCap1 [.newp]).page_table_ ∧
    ((runOps bpCap1 [.newp]).flush_page ⟨0,0⟩).2.free_list_
      = (runOps bpCap1 [.newp]).free_list_ ∧
    ((runOps bpCap1 [.newp]).flush_page ⟨0,0⟩).2.replacer_
      = (runOps bpCap1 [.newp]).replacer_ := by
  have h := (c8_flush_page_spec (runOps bpCap1 [.newp]) ⟨0,0⟩).2 0
    (by decide) (by decide)
  exact ⟨h.1, h.2.1, h.2.2.1, h.2.2.2.1, h.2.2.2.2.1, h.2.2.2.2.2.1,
         h.2.2.2.2.2.2.1, h.2.2.2.2.2.2.2.1, h.2.2.2.2.2.2.2.2.1⟩

/-- `LRUReplacer.pin` removes the frame from the tracked list (a no-op
when the frame is untracked, where `erase` is the identity). -/
theorem lru_pin_erase (r : LRUReplacer) (f : Nat) :
    (r.pin f).lru_list_ = r.lru_list_.erase f := by
  unfold LRUReplacer.pin
  split
  · rfl
  · exact (List.erase_of_not_mem (by assumption)).symm

/-- C10: on a page-table hit, `fetch_page` returns the resident frame
with its pin count incremented and the frame removed from the tracker;
the frame's bytes, dirty flag and identity are unchanged, the disk
collaborator is untouched (no read and no write occur), and the page
table, free list and every other frame are unchanged. -/
theorem c10_fetch_page_hit_spec (bp : BufferPoolManager) (pid : PageId) (fid : Nat)
    (hf : ptLookup bp.page_table_ pid = some fid) (hlen : fid < bp.pages_.length) :
    ∃ bp', bp.fetch_page pid = some (fid, bp') ∧
      (bp'.getPage fid).pin_count_ = (bp.getPage fid).pin_count_ + 1 ∧
      (bp'.getPage fid).data_ = (bp.getPage fid).data_ ∧
      (bp'.getPage fid).is_dirty_ = (bp.getPage fid).is_dirty_ ∧
      (bp'.getPage fid).id_ = (bp.getPage fid).id_ ∧
      bp'.replacer_.lru_list_ = bp.replacer_.lru_list_.erase fid ∧
      bp'.disk_manager_ = bp.disk_manager_ ∧
      bp'.page_table_ = bp.page_table_ ∧
      bp'.free_list_ = bp.free_list_ ∧
      (∀ g, g ≠ fid → bp'.getPage g = bp.getPage g) := by
  simp only [BufferPoolManager.fetch_page, hf]
  refine ⟨_, rfl, ?_, ?_, ?_, ?_, lru_pin_erase bp.replacer_ fid, rfl, rfl, rfl, ?_⟩
  · simp only [BufferPoolManager.getPage, BufferPoolManager.setPage]
    rw [getD_set_self _ _ _ _ hlen]
  · simp only [BufferPoolManager.getPage, BufferPoolManager.setPage]
    rw [getD_set_self _ _ _ _ hlen]
  · simp only [BufferPoolManager.getPage, BufferPoolManager.setPage]
    rw [getD_set_self _ _ _ _ hlen]
  · simp only [BufferPoolManager.getPage, BufferPoolManager.setPage]
    rw [getD_set_self _ _ _ _ hlen]
  · intro g hg
    simp only [BufferPoolManager.getPage, BufferPoolManager.setPage]
    rw [getD_set_ne _ _ _ _ _ hg]

/-- Witness for C10 at a concrete input: capacity-1 pool after one
`new_page`, re-fetching the resident identity (0,0) held by frame 0. -/
theorem c10_fetch_page_hit_spec_witness :
    ∃ bp', (runOps bpCap1 [.newp]).fetch_page ⟨0,0⟩ = some (0, bp') ∧
      (bp'.getPage 0).pin_count_ = ((runOps bpCap1 [.newp]).getPage 0).pin_count_ + 1 ∧
      (bp'.getPage 0).data_ = ((runOps bpCap1 [.newp]).getPage 0).data_ ∧
      (bp'.getPage 0).is_dirty_ = ((runOps bpCap1 [.newp]).getPage 0).is_dirty_ ∧
      (bp'.getPage 0).id_ = ((runOps bpCap1 [.newp]).getPage 0).id_ ∧
      bp'.replacer_.lru_list_
        = (runOps bpCap1 [.newp]).replacer_.lru_list_.erase 0 ∧
      bp'.disk_manager_ = (runOps bpCap1 [.newp]).disk_manager_ ∧
      bp'.page_table_ = (runOps bpCap1 [.newp]).page_table_ ∧
      bp'.free_list_ = (runOps bpCap1 [.newp]).free_list_ ∧
      (∀ g, g ≠ 0 → bp'.getPage g = (runOps bpCap1 [.newp]).getPage g) :=
  c10_fetch_page_hit_spec (runOps bpCap1 [.newp]) ⟨0,0⟩ 0 (by decide) (by decide)

/-- C6: `victim` fails exactly on an empty tracked list, and otherwise
removes and returns its back — the least-recently-unpinned frame, since
`unpin` inserts untracked frames at the front (most-recent position) and
is a no-op on tracked frames.  Consequently, unpinning three distinct
frames a, b, c in this order into an empty tracker makes the next three
victim selections return a, then b, then c, emptying the tracker. -/
theorem c6_lru_eviction_order_spec (a b c : Nat)
    (hab : a ≠ b) (hac : a ≠ c) (hbc : b ≠ c) :
    (∀ r : LRUReplacer, r.victim = none ↔ r.lru_list_ = []) ∧
    (∀ (r : LRUReplacer) (l : List Nat) (f : Nat), r.lru_list_ = l ++ [f] →
      r.victim = some (f, { r with lru_list_ := l })) ∧
    (∀ (r : LRUReplacer) (f : Nat), f ∈ r.lru_list_ → r.unpin f = r) ∧
    (∀ (r : LRUReplacer) (f : Nat), f ∉ r.lru_list_ →
      (r.unpin f).lru_list_ = f :: r.lru_list_) ∧
    (∀ r : LRUReplacer, r.lru_list_ = [] →
      ∃ r1 r2 r3,
        (((r.unpin a).unpin b).unpin c).victim = some (a, r1) ∧
        r1.victim = some (b, r2) ∧
        r2.victim = some (c, r3) ∧
        r3.lru_list_ = []) := by
  have hvic : ∀ (r : LRUReplacer) (l : List Nat) (f : Nat), r.lru_list_ = l ++ [f] →
      r.victim = some (f, { r with lru_list_ := l }) := by
    intro r l f h
    unfold LRUReplacer.victim
    simp only [h, List.getLast?_concat, List.dropLast_concat]
  have huc : ∀ (s : LRUReplacer) (f : Nat), f ∉ s.lru_list_ →
      (s.unpin f).lru_list_ = f :: s.lru_list_ := by
    intro s f h
    simp [LRUReplacer.unpin, h]
  refine ⟨?_, hvic, ?_, huc, ?_⟩
  · intro r
    unfold LRUReplacer.victim
    cases h : r.lru_list_.getLast? with
    | none => simp [List.getLast?_eq_none_iff.mp h]
    | some f =>
      have hne : r.lru_list_ ≠ [] := by
        intro he
        rw [he] at h
        cases h
      simp [hne]
  · intro r f h
    simp [LRUReplacer.unpin, h]
  · intro r hr
    have h1 := huc r a (by rw [hr]; simp)
    rw [hr] at h1
    have h2 := huc (r.unpin a) b (by rw [h1]; simp [Ne.symm hab])
    rw [h1] at h2
    have h3 := huc ((r.unpin a).unpin b) c (by rw [h2]; simp [Ne.symm hac, Ne.symm hbc])
    rw [h2] at h3
    exact ⟨_, _, _, hvic _ [c, b] a (by rw [h3]; rfl), hvic _ [c] b rfl,
           hvic _ [] c rfl, rfl⟩

/-- Witness for C6 at a concrete input: the empty capacity-3 tracker and
the distinct frames 0, 1, 2. -/
theorem c6_lru_eviction_order_spec_witness :
    ((LRUReplacer.mkNew 3).victim = none ↔ (LRUReplacer.mkNew 3).lru_list_ = []) ∧
    ∃ r1 r2 r3,
      ((((LRUReplacer.mkNew 3).unpin 0).unpin 1).unpin 2).victim = some (0, r1) ∧
      r1.victim = some (1, r2) ∧
      r2.victim = some (2, r3) ∧
      r3.lru_list_ = [] := by
  have h := c6_lru_eviction_order_spec 0 1 2 (by decide) (by decide) (by decide)
  exact ⟨h.1 (LRUReplacer.mkNew 3), h.2.2.2.2 (LRUReplacer.mkNew 3) rfl⟩
